import Mathlib

/-!
Verification of the bagsfm-go client library (package `bags`).

This file shallowly embeds the library's transport core (`client.go`),
multipart streaming producer (`tokenlaunch.go`), and operation wrappers
(`tokenlaunch.go`, `feeshare.go`, `analytics.go`) and proves the frozen
claims about them.  Go standard-library helpers that the code calls
(`strings.TrimSpace`, `path.Clean`, `path.Join`, `io.Pipe`,
`mime/multipart.Writer`) are embedded with their documented Go semantics.
-/

namespace BagsFm

/-! ## Go `unicode.IsSpace` and `strings.TrimSpace` -/

/-- Embedding of Go `unicode.IsSpace`: the Latin-1 white space set
(`\t \n \v \f \r`, space, NEL U+0085, NBSP U+00A0) together with the
Unicode `White_Space` ranges U+1680, U+2000–U+200A, U+2028, U+2029,
U+202F, U+205F, U+3000. -/
def goIsSpace (c : Char) : Bool :=
  decide (c.toNat = 32 ∨ (9 ≤ c.toNat ∧ c.toNat ≤ 13) ∨ c.toNat = 0x85 ∨
    c.toNat = 0xA0 ∨ c.toNat = 0x1680 ∨ (0x2000 ≤ c.toNat ∧ c.toNat ≤ 0x200A) ∨
    c.toNat = 0x2028 ∨ c.toNat = 0x2029 ∨ c.toNat = 0x202F ∨ c.toNat = 0x205F ∨
    c.toNat = 0x3000)

/-- Embedding of Go `strings.TrimSpace`: drop white space characters from
both ends of the string. -/
def trimSpace (s : String) : String :=
  ⟨((s.data.dropWhile goIsSpace).reverse.dropWhile goIsSpace).reverse⟩

/-! ## Go `path.Clean` and `path.Join`

`client.go` builds the request URL path with
`base.Path = path.Join(strings.TrimSuffix(base.Path, "/"), relPath)`.
We embed `path.Clean` by its segment semantics: split on `/`, drop empty
and `.` segments, resolve `..` (for rooted paths `..` at the root is
dropped; for relative paths leading `..` segments are kept). -/

/-- Split a character list into `/`-separated segments; `cur` is the
reversed current segment being accumulated. -/
def splitSlashAux (cur : List Char) : List Char → List (List Char)
  | [] => [cur.reverse]
  | c :: cs =>
    if c = '/' then cur.reverse :: splitSlashAux [] cs
    else splitSlashAux (c :: cur) cs

/-- Split a path (as a character list) into its `/`-separated segments. -/
def splitSlash (l : List Char) : List (List Char) :=
  splitSlashAux [] l

/-- Process segments of a rooted path against a stack, as Go `path.Clean`
does: skip empty and `.` segments, pop on `..` (no-op at the root),
push anything else. -/
def cleanSegsR (st : List (List Char)) : List (List Char) → List (List Char)
  | [] => st
  | s :: rest =>
    if s = [] ∨ s = ['.'] then cleanSegsR st rest
    else if s = ['.', '.'] then cleanSegsR st.dropLast rest
    else cleanSegsR (st ++ [s]) rest

/-- Process segments of a relative (non-rooted) path: like `cleanSegsR`
but a `..` that cannot pop a real segment is kept. -/
def cleanSegsNR (st : List (List Char)) : List (List Char) → List (List Char)
  | [] => st
  | s :: rest =>
    if s = [] ∨ s = ['.'] then cleanSegsNR st rest
    else if s = ['.', '.'] then
      if st = [] ∨ st.getLast? = some ['.', '.'] then cleanSegsNR (st ++ [s]) rest
      else cleanSegsNR st.dropLast rest
    else cleanSegsNR (st ++ [s]) rest

/-- Join segments with `/` separators. -/
def intercalateSlash : List (List Char) → List Char
  | [] => []
  | [s] => s
  | s :: rest => s ++ '/' :: intercalateSlash rest

/-- Embedding of Go `path.Clean`. -/
def goPathClean (p : List Char) : List Char :=
  if p = [] then ['.']
  else if p.head? = some '/' then
    let st := cleanSegsR [] (splitSlash p)
    if st = [] then ['/'] else '/' :: intercalateSlash st
  else
    let st := cleanSegsNR [] (splitSlash p)
    if st = [] then ['.'] else intercalateSlash st

/-- Embedding of Go `path.Join` for two elements: empty elements are
skipped, the rest are joined with `/` and cleaned. -/
def goPathJoin (a b : List Char) : List Char :=
  if a = [] ∧ b = [] then []
  else if a = [] then goPathClean b
  else if b = [] then goPathClean a
  else goPathClean (a ++ '/' :: b)

/-- Embedding of Go `strings.TrimSuffix(s, "/")`: remove one trailing
slash if present. -/
def trimSuffixSlash (l : List Char) : List Char :=
  if l.getLast? = some '/' then l.dropLast else l

/-- URL path computed by `newRequest` under the default configuration:
`DefaultBaseURL = "https://public-api-v2.bags.fm/api/v1/"` parses to the
path `/api/v1/`, and `newRequest` sets
`base.Path = path.Join(strings.TrimSuffix(base.Path, "/"), relPath)`. -/
def newRequestPath (relPath : String) : String :=
  ⟨goPathJoin (trimSuffixSlash "/api/v1/".data) relPath.data⟩

/-! ## Request headers (`newRequest`, client.go lines 104–112)

`newRequest` sets `x-api-key` to the client's API key, `Accept` to
`application/json`, `Content-Type` to the supplied content type when it
is non-empty, and `User-Agent` to the trimmed configured user agent when
that is non-empty after trimming. -/

/-- Header list attached by `newRequest`, as a list of (name, value)
pairs in the order the source sets them. -/
def newRequestHeaders (apiKey userAgent contentType : String) :
    List (String × String) :=
  [("x-api-key", apiKey), ("Accept", "application/json")] ++
    (if contentType ≠ "" then [("Content-Type", contentType)] else []) ++
    (if trimSpace userAgent ≠ "" then [("User-Agent", trimSpace userAgent)] else [])

/-! ## Transport core error handling (`do`, client.go lines 114–143)

JSON decoding of the error body (`json.Unmarshal(data, &ae)`) is
abstracted into an `Option ApiError` argument: `some ae` when the body
decodes into the error shape, `none` when unmarshalling fails.  The raw
body and the HTTP status line are byte lists. -/

/-- Embedding of the `apiError` struct of client.go: `Success`,
`Message` (JSON field `error`) and `Status` (0 when the body omitted it,
since Go zero-initialises the int). -/
structure ApiError where
  success : Bool
  message : String
  status : Nat
deriving DecidableEq

/-- Error values `do` can return: transport-level errors from
`c.HTTP.Do` (`network`), the structured `*apiError` (`structured`), and
the generic `fmt.Errorf("bags api error: %s: %s", ...)` message rendered
as bytes (`generic`). -/
inductive DoError where
  | network (e : String)
  | structured (ae : ApiError)
  | generic (msg : List Nat)
deriving DecidableEq

/-- UTF-8 bytes of the `…` rune appended by the snippet truncation. -/
def ellipsisBytes : List Nat := [226, 128, 166]

/-- Bytes of an ASCII string literal (for ASCII text, code points and
UTF-8 bytes coincide). -/
def asciiBytes (s : String) : List Nat := s.data.map Char.toNat

/-- Body snippet used in the generic error: `if len(bodySnippet) > 512
\x7b bodySnippet = bodySnippet[:512] + "…" \x7d`. -/
def snippetOf (data : List Nat) : List Nat :=
  if data.length > 512 then data.take 512 ++ ellipsisBytes else data

/-- Message of the generic fallback error:
`fmt.Errorf("bags api error: %s: %s", res.Status, bodySnippet)`. -/
def genericMsg (statusLine data : List Nat) : List Nat :=
  asciiBytes "bags api error: " ++ statusLine ++ asciiBytes ": " ++ snippetOf data

/-- The structured-error shape test of `do`: unmarshalling succeeded and
`ae.Message != "" || !ae.Success`. -/
def looksStructured : Option ApiError → Bool
  | none => false
  | some ae => ae.message != "" || !ae.success

/-- Embedding of the non-2xx branch of `do`: if the body decoded and the
payload indicates failure, return the structured error with the status
defaulted to the HTTP status code; otherwise return the generic error
with the capped body snippet. -/
def doNon2xx (statusCode : Nat) (statusLine data : List Nat)
    (decoded : Option ApiError) : DoError :=
  match decoded with
  | some ae =>
    if ae.message ≠ "" ∨ ae.success = false then
      .structured { ae with status := if ae.status = 0 then statusCode else ae.status }
    else .generic (genericMsg statusLine data)
  | none => .generic (genericMsg statusLine data)

/-! ## The `io.Pipe` and `multipart.Writer` model

The streamed multipart body is modelled as a list of chunks: a
`fieldPart` for each `mw.WriteField`, a `filePartHeader` for
`mw.CreatePart(h)`, a `fileData` for the `io.Copy` of the image bytes
and a `closingBoundary` for the trailer `mw.Close()` writes.  The pipe
write end is a buffer plus a status; Go `io.Pipe` close semantics: the
first close wins, a write after close fails with `io: read/write on
closed pipe`, and `CloseWithError` makes the reader observe the error. -/

/-- Chunks written into the pipe by the multipart producer. -/
inductive Chunk where
  | fieldPart (name value : String)
  | filePartHeader (filename ctype : String)
  | fileData (bytes : List Nat)
  | closingBoundary
deriving DecidableEq

/-- Status of the pipe write end. -/
inductive PipeStatus where
  | opened
  | closedOk
  | closedErr (e : String)
deriving DecidableEq

/-- The pipe write end: chunks delivered so far plus the close status. -/
structure PipeState where
  buf : List Chunk
  status : PipeStatus
deriving DecidableEq

/-- A freshly created pipe (`io.Pipe()`). -/
def pipeInit : PipeState := ⟨[], .opened⟩

/-- Go error returned by writes on a closed pipe. -/
def errClosedPipe : String := "io: read/write on closed pipe"

/-- Write a chunk to the pipe: appends while open, fails with
`errClosedPipe` after any close. -/
def pipeWrite (ps : PipeState) (c : Chunk) : PipeState × Option String :=
  match ps.status with
  | .opened => ({ ps with buf := ps.buf ++ [c] }, none)
  | _ => (ps, some errClosedPipe)

/-- Embedding of `pw.CloseWithError(err)`: the first close wins. -/
def pipeCloseWithError (ps : PipeState) (e : String) : PipeState :=
  match ps.status with
  | .opened => { ps with status := .closedErr e }
  | _ => ps

/-- Embedding of `pw.Close()`: a clean close; no-op if already closed. -/
def pipeClose (ps : PipeState) : PipeState :=
  match ps.status with
  | .opened => { ps with status := .closedOk }
  | _ => ps

/-- A caller-supplied image source (`io.Reader`): the bytes it yields
before end of stream, and an optional read error it then reports. -/
structure ImageSrc where
  bytes : List Nat
  readErr : Option String
deriving DecidableEq

/-- Embedding of `mw.WriteField(k, v)`: one field part through the pipe. -/
def mwWriteField (ps : PipeState) (k v : String) : PipeState × Option String :=
  pipeWrite ps (.fieldPart k v)

/-- Embedding of `mw.CreatePart(h)` for the image part header. -/
def mwCreatePart (ps : PipeState) (filename ctype : String) :
    PipeState × Option String :=
  pipeWrite ps (.filePartHeader filename ctype)

/-- Embedding of `io.Copy(part, in.Image)`: stream the source bytes into
the part, then report the source's read error if any. -/
def copyImage (ps : PipeState) (img : ImageSrc) : PipeState × Option String :=
  match pipeWrite ps (.fileData img.bytes) with
  | (ps1, some e) => (ps1, some e)
  | (ps1, none) => (ps1, img.readErr)

/-- Embedding of `mw.Close()`: writes the closing boundary trailer
through the pipe; fails (and writes nothing) if the pipe is closed. -/
def mwClose (ps : PipeState) : PipeState × Option String :=
  pipeWrite ps .closingBoundary

/-! ## CreateTokenInfoAndMetadata (tokenlaunch.go lines 88–154) -/

/-- Embedding of `CreateTokenInfoRequest`; the `io.Reader` image is an
optional `ImageSrc` (`none` models a nil `Image`). -/
structure CreateTokenInfoRequest where
  name : String
  symbol : String
  description : String
  telegram : String
  twitter : String
  website : String
  image : Option ImageSrc
  imageFilename : String
  imageMIMEType : String
deriving DecidableEq

/-- Embedding of the `writeField` closure of the producer goroutine:
skip blank values, otherwise `mw.WriteField` (its error is discarded
with `_ =`). -/
def writeField (ps : PipeState) (k v : String) : PipeState :=
  if trimSpace v = "" then ps else (mwWriteField ps k v).1

/-- Sequence of `writeField` calls over the (key, value) pairs. -/
def writeFields (ps : PipeState) : List (String × String) → PipeState
  | [] => ps
  | kv :: rest => writeFields (writeField ps kv.1 kv.2) rest

/-- The six text fields the producer writes, in source order. -/
def tokenInfoFields (r : CreateTokenInfoRequest) : List (String × String) :=
  [("name", r.name), ("symbol", r.symbol), ("description", r.description),
   ("telegram", r.telegram), ("twitter", r.twitter), ("website", r.website)]

/-- Content type of the image part: the request's MIME type, defaulted
to `application/octet-stream` when blank. -/
def imageCtype (r : CreateTokenInfoRequest) : String :=
  if trimSpace r.imageMIMEType = "" then "application/octet-stream" else r.imageMIMEType

/-- Body of the producer goroutine before its deferred calls: write the
six text fields, create the image part, stream the image; on a
`CreatePart` or copy error, `pw.CloseWithError(err)`. -/
def producerBody (r : CreateTokenInfoRequest) (img : ImageSrc)
    (ps : PipeState) : PipeState :=
  let ps1 := writeFields ps (tokenInfoFields r)
  match mwCreatePart ps1 r.imageFilename (imageCtype r) with
  | (ps2, some e) => pipeCloseWithError ps2 e
  | (ps2, none) =>
    match copyImage ps2 img with
    | (ps3, some e) => pipeCloseWithError ps3 e
    | (ps3, none) => ps3

/-- The producer goroutine of `CreateTokenInfoAndMetadata`, deferred
calls included.  The source registers `defer mw.Close()` first and
`defer pw.Close()` second, so on exit the deferred calls run in LIFO
order: `pw.Close()` first, then `mw.Close()` (whose error is
discarded). -/
def producer (r : CreateTokenInfoRequest) (img : ImageSrc)
    (ps : PipeState) : PipeState :=
  let ps1 := producerBody r img ps
  let ps2 := pipeClose ps1
  (mwClose ps2).1

/-! ## Operation wrappers

Each wrapper validates its input locally, then performs at most one
network call through an abstract transport function standing for
`c.do`/`c.get`/`c.postJSON` (its argument describes the request, its
result is either a `DoError` or the decoded envelope).  Each wrapper
returns its result together with the list of network calls issued, so
"no network call was made" is the statement that the list is empty. -/

/-- One network call: method, relative path, query parameters. -/
structure NetCall where
  method : String
  path : String
  query : List (String × String)
deriving DecidableEq

/-- Errors an operation wrapper can return: local validation failures,
propagated transport/`do` errors, and the business-level
`fmt.Errorf("unexpected response")`. -/
inductive OpError where
  | validation (msg : String)
  | transport (e : DoError)
  | unexpectedResponse
deriving DecidableEq

/-- The uniform `\x7bsuccess, response\x7d` envelope the wrappers decode. -/
structure Envelope (α : Type) where
  success : Bool
  response : α

/-- Embedding of `TokenLaunchObj` (tokenlaunch.go). -/
structure TokenLaunchObj where
  userId : String
  name : String
  symbol : String
  description : String
  telegram : String
  twitter : String
  website : String
  image : String
  tokenMint : String
  status : String
  launchWallet : String
  launchSig : String
  uri : String
  createdAtISO : String
  updatedAtISO : String
deriving DecidableEq

/-- Embedding of `CreateTokenInfoResult`. -/
structure CreateTokenInfoResult where
  tokenMint : String
  tokenMetadata : String
  tokenLaunch : TokenLaunchObj
deriving DecidableEq

/-- The network call issued by `CreateTokenInfoAndMetadata`. -/
def tokenInfoCall : NetCall := ⟨"POST", "token-launch/create-token-info", []⟩

/-- Embedding of `CreateTokenInfoAndMetadata`: nil/blank validation,
then the streaming multipart POST.  The transport consumes the pipe: a
pipe closed with an error makes `c.HTTP.Do` (and hence `do`) return
that error; otherwise the abstract transport yields the decoded
envelope, and the wrapper requires `success` and a non-nil `response`. -/
def createTokenInfoAndMetadata (inp : Option CreateTokenInfoRequest)
    (doFn : NetCall → List Chunk → Except DoError (Envelope (Option CreateTokenInfoResult))) :
    Except OpError CreateTokenInfoResult × List NetCall :=
  match inp with
  | none => (.error (.validation "nil request"), [])
  | some r =>
    if trimSpace r.name = "" ∨ trimSpace r.symbol = "" then
      (.error (.validation "name and symbol are required"), [])
    else
      match r.image with
      | none => (.error (.validation "image and image filename are required"), [])
      | some img =>
        if trimSpace r.imageFilename = "" then
          (.error (.validation "image and image filename are required"), [])
        else
          let ps := producer r img pipeInit
          match ps.status with
          | .closedErr e => (.error (.transport (.network e)), [tokenInfoCall])
          | _ =>
            match doFn tokenInfoCall ps.buf with
            | .error de => (.error (.transport de), [tokenInfoCall])
            | .ok env =>
              match env.success, env.response with
              | true, some res => (.ok res, [tokenInfoCall])
              | _, _ => (.error .unexpectedResponse, [tokenInfoCall])

/-! ## CreateTokenLaunchConfig (tokenlaunch.go lines 158–177) -/

/-- Embedding of `CreateTokenLaunchConfigRequest`. -/
structure CreateTokenLaunchConfigRequest where
  launchWallet : String
deriving DecidableEq

/-- Embedding of `CreateTokenLaunchConfigResult`. -/
structure CreateTokenLaunchConfigResult where
  tx : String
  configKey : String
deriving DecidableEq

/-- The network call issued by `CreateTokenLaunchConfig`. -/
def createConfigCall : NetCall := ⟨"POST", "token-launch/create-config", []⟩

/-- Embedding of `CreateTokenLaunchConfig`. -/
def createTokenLaunchConfig
    (doFn : NetCall → Except DoError (Envelope (Option CreateTokenLaunchConfigResult)))
    (inp : Option CreateTokenLaunchConfigRequest) :
    Except OpError CreateTokenLaunchConfigResult × List NetCall :=
  match inp with
  | none => (.error (.validation "launchWallet is required"), [])
  | some r =>
    if trimSpace r.launchWallet = "" then
      (.error (.validation "launchWallet is required"), [])
    else
      match doFn createConfigCall with
      | .error de => (.error (.transport de), [createConfigCall])
      | .ok env =>
        match env.success, env.response with
        | true, some res => (.ok res, [createConfigCall])
        | _, _ => (.error .unexpectedResponse, [createConfigCall])

/-! ## CreateTokenLaunchTransaction (tokenlaunch.go lines 179–206) -/

/-- Embedding of `CreateTokenLaunchTxRequest`. -/
structure CreateTokenLaunchTxRequest where
  ipfs : String
  tokenMint : String
  wallet : String
  initialBuyLamports : Int
  configKey : String
deriving DecidableEq

/-- Embedding of `CreateTokenLaunchTxResult`. -/
structure CreateTokenLaunchTxResult where
  transaction : String
deriving DecidableEq

/-- The network call issued by `CreateTokenLaunchTransaction`. -/
def createLaunchTxCall : NetCall := ⟨"POST", "token-launch/create-launch-transaction", []⟩

/-- Embedding of `CreateTokenLaunchTransaction`: the wrapper requires
`success` and a non-blank response transaction string. -/
def createTokenLaunchTransaction
    (doFn : NetCall → Except DoError (Envelope String))
    (inp : Option CreateTokenLaunchTxRequest) :
    Except OpError CreateTokenLaunchTxResult × List NetCall :=
  match inp with
  | none => (.error (.validation "nil request"), [])
  | some r =>
    if trimSpace r.ipfs = "" ∨ trimSpace r.tokenMint = "" ∨
        trimSpace r.wallet = "" ∨ trimSpace r.configKey = "" then
      (.error (.validation "ipfs, tokenMint, wallet, and configKey are required"), [])
    else
      match doFn createLaunchTxCall with
      | .error de => (.error (.transport de), [createLaunchTxCall])
      | .ok env =>
        if env.success = false ∨ trimSpace env.response = "" then
          (.error .unexpectedResponse, [createLaunchTxCall])
        else (.ok ⟨env.response⟩, [createLaunchTxCall])

/-! ## GetFeeShareWallet (feeshare.go lines 39–68) -/

/-- The network call issued by `GetFeeShareWallet` (the handle is sent
as a query parameter; `url.Values.Encode` escaping is left to the
transport layer). -/
def feeShareWalletCall (handle : String) : NetCall :=
  ⟨"GET", "token-launch/fee-share/wallet/twitter", [("twitterUsername", handle)]⟩

/-- Embedding of `GetFeeShareWallet`: blank-handle validation, then the
wrapper requires `success` and a non-blank response wallet string. -/
def getFeeShareWallet (doFn : NetCall → Except DoError (Envelope String))
    (twitterUsername : String) : Except OpError String × List NetCall :=
  let handle := trimSpace twitterUsername
  if handle = "" then (.error (.validation "twitterUsername is required"), [])
  else
    match doFn (feeShareWalletCall handle) with
    | .error de => (.error (.transport de), [feeShareWalletCall handle])
    | .ok env =>
      if env.success = false ∨ trimSpace env.response = "" then
        (.error .unexpectedResponse, [feeShareWalletCall handle])
      else (.ok env.response, [feeShareWalletCall handle])

/-! ## CreateFeeShareConfig (feeshare.go lines 140–170) -/

/-- Embedding of `CreateFeeShareConfigRequest`. -/
structure CreateFeeShareConfigRequest where
  walletA : String
  walletB : String
  walletABps : Int
  walletBBps : Int
  payer : String
  baseMint : String
  quoteMint : String
deriving DecidableEq

/-- Embedding of `CreateFeeShareConfigResult`. -/
structure CreateFeeShareConfigResult where
  tx : String
  configKey : String
deriving DecidableEq

/-- The network call issued by `CreateFeeShareConfig`. -/
def feeShareConfigCall : NetCall := ⟨"POST", "token-launch/fee-share/create-config", []⟩

/-- Embedding of `CreateFeeShareConfig`. -/
def createFeeShareConfig
    (doFn : NetCall → Except DoError (Envelope (Option CreateFeeShareConfigResult)))
    (inp : Option CreateFeeShareConfigRequest) :
    Except OpError CreateFeeShareConfigResult × List NetCall :=
  match inp with
  | none => (.error (.validation "nil request"), [])
  | some r =>
    if trimSpace r.walletA = "" ∨ trimSpace r.walletB = "" ∨
        trimSpace r.payer = "" ∨ trimSpace r.baseMint = "" ∨
        trimSpace r.quoteMint = "" then
      (.error (.validation "walletA, walletB, payer, baseMint, and quoteMint are required"), [])
    else
      match doFn feeShareConfigCall with
      | .error de => (.error (.transport de), [feeShareConfigCall])
      | .ok env =>
        match env.success, env.response with
        | true, some res => (.ok res, [feeShareConfigCall])
        | _, _ => (.error .unexpectedResponse, [feeShareConfigCall])

/-! ## Analytics (analytics.go) -/

/-- The network call issued by `GetTokenLifetimeFees` (note the source
puts the untrimmed `tokenMint`, query-escaped, in the URL). -/
def lifetimeFeesCall (tokenMint : String) : NetCall :=
  ⟨"GET", "token-launch/lifetime-fees", [("tokenMint", tokenMint)]⟩

/-- Embedding of `GetTokenLifetimeFees`: the wrapper checks only
`success`; the response string is returned as-is, with no non-empty
check. -/
def getTokenLifetimeFees (doFn : NetCall → Except DoError (Envelope String))
    (tokenMint : String) : Except OpError String × List NetCall :=
  if trimSpace tokenMint = "" then (.error (.validation "tokenMint is required"), [])
  else
    match doFn (lifetimeFeesCall tokenMint) with
    | .error de => (.error (.transport de), [lifetimeFeesCall tokenMint])
    | .ok env =>
      if env.success = false then
        (.error .unexpectedResponse, [lifetimeFeesCall tokenMint])
      else (.ok env.response, [lifetimeFeesCall tokenMint])

/-- Embedding of `TokenCreator` (analytics.go). -/
structure TokenCreator where
  username : String
  pfp : String
  twitterUsername : String
  royaltyBps : Int
  isCreator : Bool
  wallet : String
deriving DecidableEq

/-- The network call issued by `GetTokenLaunchCreators`. -/
def creatorsCall (tokenMint : String) : NetCall :=
  ⟨"GET", "token-launch/creator/v2", [("tokenMint", tokenMint)]⟩

/-- Embedding of `GetTokenLaunchCreators`. -/
def getTokenLaunchCreators
    (doFn : NetCall → Except DoError (Envelope (List TokenCreator)))
    (tokenMint : String) : Except OpError (List TokenCreator) × List NetCall :=
  if trimSpace tokenMint = "" then (.error (.validation "tokenMint is required"), [])
  else
    match doFn (creatorsCall tokenMint) with
    | .error de => (.error (.transport de), [creatorsCall tokenMint])
    | .ok env =>
      if env.success = false then
        (.error .unexpectedResponse, [creatorsCall tokenMint])
      else (.ok env.response, [creatorsCall tokenMint])

/-- Field parts produced by a sequence of `writeField` calls: blank
values contribute nothing, non-blank values one `fieldPart`. -/
def fieldChunksOf (l : List (String × String)) : List Chunk :=
  l.filterMap fun kv =>
    if trimSpace kv.2 = "" then none else some (.fieldPart kv.1 kv.2)

/-- Whether a chunk is a field part with the given field name. -/
def isFieldWithKey (k : String) : Chunk → Bool
  | .fieldPart k2 _ => k2 == k
  | _ => false

/-! ## Lemmas about the multipart producer -/

lemma writeField_opened (b : List Chunk) (k v : String) :
    writeField ⟨b, .opened⟩ k v =
      ⟨b ++ (if trimSpace v = "" then [] else [.fieldPart k v]), .opened⟩ := by
  unfold writeField mwWriteField pipeWrite
  split <;> simp

lemma writeFields_opened (l : List (String × String)) (b : List Chunk) :
    writeFields ⟨b, .opened⟩ l = ⟨b ++ fieldChunksOf l, .opened⟩ := by
  induction l generalizing b with
  | nil => simp [writeFields, fieldChunksOf]
  | cons kv rest ih =>
    rw [writeFields, writeField_opened, ih]
    unfold fieldChunksOf
    rw [List.filterMap_cons]
    split <;> simp [fieldChunksOf]

/-- Full run of the producer goroutine on a fresh pipe: the delivered
chunks are the non-blank field parts, the image part header and the
image bytes — never the closing boundary, because the deferred
`pw.Close()` runs before the deferred `mw.Close()` and the trailer
write hits a closed pipe.  The final status is `closedErr e` when the
image source failed with `e`, else `closedOk`. -/
lemma producer_run (r : CreateTokenInfoRequest) (img : ImageSrc) :
    producer r img pipeInit =
      ⟨fieldChunksOf (tokenInfoFields r) ++
        [.filePartHeader r.imageFilename (imageCtype r), .fileData img.bytes],
       match img.readErr with
       | some e => .closedErr e
       | none => .closedOk⟩ := by
  unfold producer producerBody
  rw [show pipeInit = ⟨[], .opened⟩ from rfl, writeFields_opened]
  cases h : img.readErr <;>
    simp [mwCreatePart, pipeWrite, copyImage, h, pipeCloseWithError, pipeClose,
      mwClose]

/-- C1: refuted on the code — on a fully successful run with a valid
request (name "MyToken", symbol "MTK", a one-byte image that reads
cleanly, filename "logo.png"), the producer does close the pipe write
end (`closedOk`, so the reader terminates), but the byte stream
delivered to the transport never contains the closing multipart
boundary: the deferred `pw.Close()` runs before the deferred
`mw.Close()`, so the trailer is written to an already-closed pipe and
dropped.  The stream is therefore not a complete multipart encoding
terminated by the closing boundary, contradicting the claim. -/
theorem producer_delivers_no_closing_boundary :
    (producer ⟨"MyToken", "MTK", "", "", "", "", some ⟨[120], none⟩, "logo.png",
        "image/png"⟩ ⟨[120], none⟩ pipeInit).status = .closedOk ∧
    Chunk.closingBoundary ∉
      (producer ⟨"MyToken", "MTK", "", "", "", "", some ⟨[120], none⟩, "logo.png",
        "image/png"⟩ ⟨[120], none⟩ pipeInit).buf := by
  decide

lemma countP_fieldChunks_cons (k : String) (p : String × String)
    (l : List (String × String)) :
    (fieldChunksOf (p :: l)).countP (isFieldWithKey k) =
      (if trimSpace p.2 = "" then 0 else if p.1 = k then 1 else 0) +
        (fieldChunksOf l).countP (isFieldWithKey k) := by
  by_cases hb : trimSpace p.2 = ""
  · simp [fieldChunksOf, List.filterMap_cons, hb]
  · by_cases hk : p.1 = k <;>
      simp [fieldChunksOf, List.filterMap_cons, hb, hk, List.countP_cons,
        isFieldWithKey, Nat.add_comm]

lemma count_fieldChunks_cons (k v : String) (p : String × String)
    (l : List (String × String)) :
    (fieldChunksOf (p :: l)).count (Chunk.fieldPart k v) =
      (if trimSpace p.2 = "" then 0 else if p.1 = k ∧ p.2 = v then 1 else 0) +
        (fieldChunksOf l).count (Chunk.fieldPart k v) := by
  obtain ⟨k1, v1⟩ := p
  by_cases hb : trimSpace v1 = ""
  · simp [fieldChunksOf, List.filterMap_cons, hb]
  · by_cases h : k1 = k ∧ v1 = v
    · obtain ⟨rfl, rfl⟩ := h
      simp [fieldChunksOf, List.filterMap_cons, hb, List.count_cons, Nat.add_comm]
    · simp [fieldChunksOf, List.filterMap_cons, hb, h, List.count_cons,
        Chunk.fieldPart.injEq]

lemma fieldChunksOf_nil : fieldChunksOf [] = [] := rfl

lemma countP_fieldKey_tail (k fn ct : String) (bs : List Nat) :
    List.countP (isFieldWithKey k)
      [Chunk.filePartHeader fn ct, Chunk.fileData bs] = 0 := by
  simp [List.countP_cons, isFieldWithKey]

lemma count_fieldPart_tail (k v fn ct : String) (bs : List Nat) :
    List.count (Chunk.fieldPart k v)
      [Chunk.filePartHeader fn ct, Chunk.fileData bs] = 0 := by
  simp [List.count_cons]

/-- C5: for every request and every one of the six text fields, a field
whose value is blank after trimming contributes no field part to the
encoded body, and a field whose value is non-blank contributes exactly
one field part carrying the untrimmed value. -/
theorem multipart_field_written_exactly_once (r : CreateTokenInfoRequest)
    (img : ImageSrc) (k v : String) (hkv : (k, v) ∈ tokenInfoFields r) :
    ((producer r img pipeInit).buf.countP (isFieldWithKey k) =
      if trimSpace v = "" then 0 else 1) ∧
    (trimSpace v ≠ "" →
      (producer r img pipeInit).buf.count (Chunk.fieldPart k v) = 1) := by
  rw [producer_run]
  simp only [tokenInfoFields, List.mem_cons, List.not_mem_nil, or_false,
    Prod.mk.injEq] at hkv
  simp only [List.countP_append, List.count_append, countP_fieldKey_tail,
    count_fieldPart_tail, Nat.add_zero]
  rcases hkv with ⟨rfl, rfl⟩ | ⟨rfl, rfl⟩ | ⟨rfl, rfl⟩ | ⟨rfl, rfl⟩ |
    ⟨rfl, rfl⟩ | ⟨rfl, rfl⟩ <;>
  · constructor
    · simp +decide [tokenInfoFields, countP_fieldChunks_cons, fieldChunksOf_nil]
    · intro hnb
      simp +decide [tokenInfoFields, count_fieldChunks_cons, fieldChunksOf_nil, hnb]

theorem multipart_field_written_exactly_once_witness :
    ("description", "great token") ∈ tokenInfoFields
        ⟨"MyToken", "MTK", "great token", "", "", "", some ⟨[1], none⟩, "a.png", ""⟩ ∧
    (((producer ⟨"MyToken", "MTK", "great token", "", "", "", some ⟨[1], none⟩,
          "a.png", ""⟩ ⟨[1], none⟩ pipeInit).buf.countP (isFieldWithKey "description") =
        if trimSpace "great token" = "" then 0 else 1) ∧
      (trimSpace "great token" ≠ "" →
        (producer ⟨"MyToken", "MTK", "great token", "", "", "", some ⟨[1], none⟩,
            "a.png", ""⟩ ⟨[1], none⟩ pipeInit).buf.count
          (Chunk.fieldPart "description" "great token") = 1)) :=
  ⟨by decide, multipart_field_written_exactly_once _ _ _ _ (by decide)⟩

/-- C6: when the attachment source fails mid-copy with a read error,
the producer closes the pipe with that error (so the reader side
observes the failure and terminates), and for every transport the
overall `CreateTokenInfoAndMetadata` call returns that propagated error
rather than a success. -/
theorem midstream_read_error_propagates (r : CreateTokenInfoRequest)
    (img : ImageSrc) (e : String)
    (hn : trimSpace r.name ≠ "") (hs : trimSpace r.symbol ≠ "")
    (hf : trimSpace r.imageFilename ≠ "") (hi : r.image = some img)
    (he : img.readErr = some e) :
    (producer r img pipeInit).status = .closedErr e ∧
    ∀ doFn, createTokenInfoAndMetadata (some r) doFn =
      (.error (.transport (.network e)), [tokenInfoCall]) := by
  have hrun := producer_run r img
  have hstat : (producer r img pipeInit).status = .closedErr e := by
    rw [hrun, he]
  refine ⟨hstat, fun doFn => ?_⟩
  simp only [createTokenInfoAndMetadata, hi, hstat, if_neg hf,
    if_neg (show ¬(trimSpace r.name = "" ∨ trimSpace r.symbol = "") by
      simp [hn, hs])]

theorem midstream_read_error_propagates_witness :
    (producer ⟨"T", "S", "", "", "", "", some ⟨[5], some "boom"⟩, "f.png", ""⟩
        ⟨[5], some "boom"⟩ pipeInit).status = .closedErr "boom" ∧
    createTokenInfoAndMetadata
        (some ⟨"T", "S", "", "", "", "", some ⟨[5], some "boom"⟩, "f.png", ""⟩)
        (fun _ _ => .ok ⟨true, none⟩) =
      (.error (.transport (.network "boom")), [tokenInfoCall]) :=
  ⟨(midstream_read_error_propagates _ _ _ (by decide) (by decide) (by decide)
      rfl rfl).1,
   (midstream_read_error_propagates _ _ _ (by decide) (by decide) (by decide)
      rfl rfl).2 _⟩

/-! ## Lemmas about path joining -/

lemma splitSlash_api_base (l : List Char) :
    splitSlash ('/' :: 'a' :: 'p' :: 'i' :: '/' :: 'v' :: '1' :: '/' :: l) =
      [] :: ['a', 'p', 'i'] :: ['v', '1'] :: splitSlash l := by
  simp [splitSlash, splitSlashAux]

lemma cleanSegsR_append_of_no_dotdot (segs : List (List Char))
    (h : ['.', '.'] ∉ segs) (st : List (List Char)) :
    cleanSegsR st segs = st ++ cleanSegsR [] segs := by
  induction segs generalizing st with
  | nil => simp [cleanSegsR]
  | cons s rest ih =>
    have hs : s ≠ ['.', '.'] := fun hh => h (hh ▸ List.mem_cons_self _ _)
    have hr : ['.', '.'] ∉ rest := fun hm => h (List.mem_cons_of_mem _ hm)
    by_cases h1 : s = [] ∨ s = ['.']
    · simp only [cleanSegsR, if_pos h1]
      exact ih hr st
    · simp only [cleanSegsR, if_neg h1, if_neg hs, List.nil_append]
      rw [ih hr (st ++ [s]), ih hr [s], List.append_assoc]

lemma intercalateSlash_v1 (t : List (List Char)) :
    ∃ r, intercalateSlash (['v', '1'] :: t) = ['v', '1'] ++ r ∧
      (r = [] ∨ r.head? = some '/') := by
  cases t with
  | nil => exact ⟨[], by simp [intercalateSlash], Or.inl rfl⟩
  | cons s t2 =>
    exact ⟨'/' :: intercalateSlash (s :: t2), by simp [intercalateSlash],
      Or.inr rfl⟩

/-- C2 (amended): for every relative path whose segments contain no
`..`, the URL path produced by `newRequest` under the default base
endpoint stays rooted under the base path prefix `/api/v1` (a leading
separator in the relative path cannot clobber or escape the prefix). -/
theorem joined_path_stays_under_base (rel : String)
    (h : ['.', '.'] ∉ splitSlash rel.data) :
    ∃ rest : List Char, (newRequestPath rel).data = "/api/v1".data ++ rest ∧
      (rest = [] ∨ rest.head? = some '/') := by
  unfold newRequestPath
  by_cases hb : rel.data = []
  · refine ⟨[], ?_, Or.inl rfl⟩
    rw [hb]
    decide
  · have hj : goPathJoin (trimSuffixSlash "/api/v1/".data) rel.data =
        goPathClean ('/' :: 'a' :: 'p' :: 'i' :: '/' :: 'v' :: '1' :: '/' :: rel.data) := by
      rw [show trimSuffixSlash "/api/v1/".data = "/api/v1".data from by decide]
      unfold goPathJoin
      rw [if_neg (by simp [hb]), if_neg (by decide), if_neg hb]
      rfl
    rw [hj]
    unfold goPathClean
    rw [if_neg (by simp), if_pos (by rfl)]
    rw [splitSlash_api_base rel.data]
    rw [show ∀ s, cleanSegsR [] ([] :: ['a', 'p', 'i'] :: ['v', '1'] :: s) =
          cleanSegsR [['a', 'p', 'i'], ['v', '1']] s from fun s => by
        simp [cleanSegsR]]
    rw [cleanSegsR_append_of_no_dotdot _ h]
    rw [if_neg (by simp)]
    obtain ⟨r, hr, hcase⟩ := intercalateSlash_v1 (cleanSegsR [] (splitSlash rel.data))
    refine ⟨r, ?_, hcase⟩
    show '/' :: intercalateSlash (['a', 'p', 'i'] :: ['v', '1'] ::
      cleanSegsR [] (splitSlash rel.data)) = _
    rw [show ∀ t, intercalateSlash (['a', 'p', 'i'] :: ['v', '1'] :: t) =
          ['a', 'p', 'i'] ++ '/' :: intercalateSlash (['v', '1'] :: t) from
        fun t => rfl]
    rw [hr]
    rfl

theorem joined_path_stays_under_base_witness :
    (['.', '.'] ∉ splitSlash "/ping".data) ∧
    ∃ rest : List Char, (newRequestPath "/ping").data = "/api/v1".data ++ rest ∧
      (rest = [] ∨ rest.head? = some '/') :=
  ⟨by decide, joined_path_stays_under_base "/ping" (by decide)⟩

/-- C2: refuted as stated — a relative path containing `..` segments
escapes the base endpoint's path prefix, because `path.Join` cleans
`..` across the base prefix.  Concretely, joining `../../../etc/passwd`
under `/api/v1` yields `/etc/passwd`, which is not under `/api/v1`. -/
theorem joined_path_escapes_base :
    newRequestPath "../../../etc/passwd" = "/etc/passwd" ∧
    List.isPrefixOf "/api/v1".data
      (newRequestPath "../../../etc/passwd").data = false := by
  decide

/-- C3: for a non-2xx response whose body decodes as JSON, `do` returns
the structured API error exactly when the decoded payload has
success=false or a non-empty error-message field (so a decoded body
with success=true and a non-empty message is also treated as a
structured error); and whenever the decoded body omits the status field
(status 0), the returned structured error's status is the HTTP response
status code. -/
theorem do_structured_error_iff (sc : Nat) (sl data : List Nat) (ae : ApiError) :
    ((∃ ae2, doNon2xx sc sl data (some ae) = .structured ae2) ↔
      (ae.success = false ∨ ae.message ≠ "")) ∧
    (ae.status = 0 → (ae.success = false ∨ ae.message ≠ "") →
      doNon2xx sc sl data (some ae) = .structured ⟨ae.success, ae.message, sc⟩) := by
  constructor
  · by_cases hm : ae.message = "" <;> cases hsb : ae.success <;>
      simp [doNon2xx, hm, hsb]
  · intro h0 hc
    rw [doNon2xx]
    rw [if_pos (by tauto)]
    simp [h0]

theorem do_structured_error_iff_witness :
    doNon2xx 404 [] [] (some ⟨true, "bad mint", 0⟩) =
      .structured ⟨true, "bad mint", 404⟩ :=
  (do_structured_error_iff 404 [] [] ⟨true, "bad mint", 0⟩).2 rfl
    (Or.inr (by decide))

/-- C7: for a non-2xx response whose body does not decode as the
structured error shape, `do` returns the generic error whose message
contains the HTTP status line and a snippet of the body; the snippet is
the body itself when it is at most 512 bytes, and the first 512 bytes
followed by an ellipsis otherwise — the call never fails because of the
body's size. -/
theorem do_generic_error (sc : Nat) (sl data : List Nat)
    (dec : Option ApiError) (h : looksStructured dec = false) :
    doNon2xx sc sl data dec = .generic (genericMsg sl data) ∧
    sl <:+: genericMsg sl data ∧
    (data.length ≤ 512 → snippetOf data = data) ∧
    (data.length > 512 →
      snippetOf data = data.take 512 ++ ellipsisBytes ∧
        (snippetOf data).length = 515) := by
  refine ⟨?_, ⟨asciiBytes "bags api error: ", asciiBytes ": " ++ snippetOf data,
    by simp [genericMsg]⟩, ?_, ?_⟩
  · cases dec with
    | none => rfl
    | some ae =>
      have hm : ae.message = "" := by
        by_cases hmm : ae.message = ""
        · exact hmm
        · rw [looksStructured] at h
          simp [hmm] at h
      have hs : ae.success = true := by
        cases hss : ae.success
        · rw [looksStructured, hss] at h
          simp at h
        · rfl
      simp [doNon2xx, hm, hs]
  · intro hle
    rw [snippetOf, if_neg (by omega)]
  · intro hgt
    rw [snippetOf, if_pos hgt]
    refine ⟨rfl, ?_⟩
    simp [ellipsisBytes]
    omega

theorem do_generic_error_witness :
    looksStructured (none : Option ApiError) = false ∧
    (doNon2xx 500 (asciiBytes "500 Internal Server Error")
        (List.replicate 600 55) none =
        .generic (genericMsg (asciiBytes "500 Internal Server Error")
          (List.replicate 600 55)) ∧
      asciiBytes "500 Internal Server Error" <:+:
        genericMsg (asciiBytes "500 Internal Server Error")
          (List.replicate 600 55) ∧
      ((List.replicate 600 55).length ≤ 512 →
        snippetOf (List.replicate 600 55) = List.replicate 600 55) ∧
      ((List.replicate 600 55).length > 512 →
        snippetOf (List.replicate 600 55) =
          (List.replicate 600 55).take 512 ++ ellipsisBytes ∧
          (snippetOf (List.replicate 600 55)).length = 515)) :=
  ⟨rfl, do_generic_error 500 _ _ none rfl⟩

/-- C9: refuted as stated — a request built for a client whose
configured User-Agent is the empty string carries no User-Agent header
at all (the source only sets it when the trimmed value is non-empty),
while the API key header is still present. -/
theorem newRequest_headers_missing_user_agent :
    ((newRequestHeaders "key123" "" "application/json").map Prod.fst).contains
      "User-Agent" = false ∧
    ("x-api-key", "key123") ∈ newRequestHeaders "key123" "" "application/json" := by
  decide

/-- C9 (amended): every request built by `newRequest` carries the API
credential under the fixed header name x-api-key and an Accept:
application/json header; it carries the User-Agent header (with the
trimmed configured value) whenever the configured user agent is
non-blank — which holds for every client built by `New`, whose default
is "bags-go/0.1" — and it carries the Content-Type header whenever the
supplied content type is non-empty, as on POST requests with a body. -/
theorem newRequest_headers (apiKey ua ctype : String) :
    ("x-api-key", apiKey) ∈ newRequestHeaders apiKey ua ctype ∧
    ("Accept", "application/json") ∈ newRequestHeaders apiKey ua ctype ∧
    (trimSpace ua ≠ "" →
      ("User-Agent", trimSpace ua) ∈ newRequestHeaders apiKey ua ctype) ∧
    (ctype ≠ "" →
      ("Content-Type", ctype) ∈ newRequestHeaders apiKey ua ctype) := by
  refine ⟨by simp [newRequestHeaders], by simp [newRequestHeaders], ?_, ?_⟩
  · intro h
    simp [newRequestHeaders, h]
  · intro h
    simp [newRequestHeaders, h]

theorem newRequest_headers_witness :
    ("x-api-key", "k") ∈ newRequestHeaders "k" "bags-go/0.1" "application/json" ∧
    ("Accept", "application/json") ∈
      newRequestHeaders "k" "bags-go/0.1" "application/json" ∧
    (trimSpace "bags-go/0.1" ≠ "" →
      ("User-Agent", trimSpace "bags-go/0.1") ∈
        newRequestHeaders "k" "bags-go/0.1" "application/json") ∧
    ("application/json" ≠ "" →
      ("Content-Type", "application/json") ∈
        newRequestHeaders "k" "bags-go/0.1" "application/json") :=
  newRequest_headers "k" "bags-go/0.1" "application/json"

/-- C4: every 2xx response whose envelope has success=true but whose
payload is empty — a blank wallet string for GetFeeShareWallet, a blank
transaction string for CreateTokenLaunchTransaction, a nil response
object for the config and token-info operations — makes the operation
return the "unexpected response" error rather than an empty success. -/
theorem success_with_empty_payload_rejected
    (u : String) (hu : trimSpace u ≠ "")
    (w : String) (hw : trimSpace w = "")
    (rtx : CreateTokenLaunchTxRequest)
    (htx1 : trimSpace rtx.ipfs ≠ "") (htx2 : trimSpace rtx.tokenMint ≠ "")
    (htx3 : trimSpace rtx.wallet ≠ "") (htx4 : trimSpace rtx.configKey ≠ "")
    (tx : String) (htxe : trimSpace tx = "")
    (lw : String) (hlw : trimSpace lw ≠ "")
    (rfc : CreateFeeShareConfigRequest)
    (hf1 : trimSpace rfc.walletA ≠ "") (hf2 : trimSpace rfc.walletB ≠ "")
    (hf3 : trimSpace rfc.payer ≠ "") (hf4 : trimSpace rfc.baseMint ≠ "")
    (hf5 : trimSpace rfc.quoteMint ≠ "")
    (r : CreateTokenInfoRequest) (img : ImageSrc)
    (hn : trimSpace r.name ≠ "") (hs : trimSpace r.symbol ≠ "")
    (hif : trimSpace r.imageFilename ≠ "") (hi : r.image = some img)
    (hie : img.readErr = none) :
    getFeeShareWallet (fun _ => .ok ⟨true, w⟩) u =
      (.error .unexpectedResponse, [feeShareWalletCall (trimSpace u)]) ∧
    createTokenLaunchTransaction (fun _ => .ok ⟨true, tx⟩) (some rtx) =
      (.error .unexpectedResponse, [createLaunchTxCall]) ∧
    createTokenLaunchConfig (fun _ => .ok ⟨true, none⟩) (some ⟨lw⟩) =
      (.error .unexpectedResponse, [createConfigCall]) ∧
    createFeeShareConfig (fun _ => .ok ⟨true, none⟩) (some rfc) =
      (.error .unexpectedResponse, [feeShareConfigCall]) ∧
    createTokenInfoAndMetadata (some r) (fun _ _ => .ok ⟨true, none⟩) =
      (.error .unexpectedResponse, [tokenInfoCall]) := by
  refine ⟨?_, ?_, ?_, ?_, ?_⟩
  · simp [getFeeShareWallet, hu, hw]
  · simp only [createTokenLaunchTransaction,
      if_neg (show ¬(trimSpace rtx.ipfs = "" ∨ trimSpace rtx.tokenMint = "" ∨
        trimSpace rtx.wallet = "" ∨ trimSpace rtx.configKey = "") by
          simp [htx1, htx2, htx3, htx4])]
    simp [htxe]
  · simp [createTokenLaunchConfig, hlw]
  · simp only [createFeeShareConfig,
      if_neg (show ¬(trimSpace rfc.walletA = "" ∨ trimSpace rfc.walletB = "" ∨
        trimSpace rfc.payer = "" ∨ trimSpace rfc.baseMint = "" ∨
        trimSpace rfc.quoteMint = "") by simp [hf1, hf2, hf3, hf4, hf5])]
  · have hstat : (producer r img pipeInit).status = .closedOk := by
      rw [producer_run, hie]
    simp only [createTokenInfoAndMetadata, hi, hstat, if_neg hif,
      if_neg (show ¬(trimSpace r.name = "" ∨ trimSpace r.symbol = "") by
        simp [hn, hs])]

theorem success_with_empty_payload_rejected_witness :
    getFeeShareWallet (fun _ => .ok ⟨true, " "⟩) "alice123" =
      (.error .unexpectedResponse, [feeShareWalletCall (trimSpace "alice123")]) ∧
    createTokenLaunchTransaction (fun _ => .ok ⟨true, ""⟩)
        (some ⟨"ipfs://m", "Mint1", "Wallet1", 0, "Cfg1"⟩) =
      (.error .unexpectedResponse, [createLaunchTxCall]) ∧
    createTokenLaunchConfig (fun _ => .ok ⟨true, none⟩) (some ⟨"Wallet1"⟩) =
      (.error .unexpectedResponse, [createConfigCall]) ∧
    createFeeShareConfig (fun _ => .ok ⟨true, none⟩)
        (some ⟨"A1", "B1", 200, 9800, "P1", "BM1", "QM1"⟩) =
      (.error .unexpectedResponse, [feeShareConfigCall]) ∧
    createTokenInfoAndMetadata
        (some ⟨"N", "S", "", "", "", "", some ⟨[9], none⟩, "x.png", ""⟩)
        (fun _ _ => .ok ⟨true, none⟩) =
      (.error .unexpectedResponse, [tokenInfoCall]) :=
  success_with_empty_payload_rejected "alice123" (by decide) " " (by decide)
    ⟨"ipfs://m", "Mint1", "Wallet1", 0, "Cfg1"⟩ (by decide) (by decide)
    (by decide) (by decide) "" (by decide) "Wallet1" (by decide)
    ⟨"A1", "B1", 200, 9800, "P1", "BM1", "QM1"⟩ (by decide) (by decide)
    (by decide) (by decide) (by decide)
    ⟨"N", "S", "", "", "", "", some ⟨[9], none⟩, "x.png", ""⟩ ⟨[9], none⟩
    (by decide) (by decide) (by decide) rfl rfl

lemma tokenInfo_validation_error (r : CreateTokenInfoRequest)
    (doFn : NetCall → List Chunk →
      Except DoError (Envelope (Option CreateTokenInfoResult)))
    (h : trimSpace r.name = "" ∨ trimSpace r.symbol = "" ∨ r.image = none ∨
      trimSpace r.imageFilename = "") :
    ∃ m, createTokenInfoAndMetadata (some r) doFn =
      (.error (.validation m), []) := by
  by_cases hns : trimSpace r.name = "" ∨ trimSpace r.symbol = ""
  · exact ⟨"name and symbol are required",
      by simp [createTokenInfoAndMetadata, hns]⟩
  · cases hri : r.image with
    | none => exact ⟨"image and image filename are required",
        by simp [createTokenInfoAndMetadata, hns, hri]⟩
    | some img =>
      have hif : trimSpace r.imageFilename = "" := by
        rcases h with h | h | h | h
        · exact absurd (Or.inl h) hns
        · exact absurd (Or.inr h) hns
        · rw [hri] at h
          exact absurd h (by simp)
        · exact h
      exact ⟨"image and image filename are required",
        by simp [createTokenInfoAndMetadata, hns, hri, hif]⟩

/-- C8: every operation given a mandatory field that is blank after
trimming (or a nil image) returns a local validation error and issues
no network call, for every transport. -/
theorem local_validation_no_network
    (cfgDo : NetCall → Except DoError (Envelope (Option CreateTokenLaunchConfigResult)))
    (tiDo : NetCall → List Chunk →
      Except DoError (Envelope (Option CreateTokenInfoResult)))
    (fsDo txDo ltDo : NetCall → Except DoError (Envelope String))
    (crDo : NetCall → Except DoError (Envelope (List TokenCreator)))
    (fscDo : NetCall → Except DoError (Envelope (Option CreateFeeShareConfigResult)))
    (lw : String) (hlw : trimSpace lw = "")
    (r1 : CreateTokenInfoRequest)
    (h1 : trimSpace r1.name = "" ∨ trimSpace r1.symbol = "")
    (r2 : CreateTokenInfoRequest) (h2 : r2.image = none)
    (r3 : CreateTokenInfoRequest) (h3 : trimSpace r3.imageFilename = "")
    (tw : String) (htw : trimSpace tw = "")
    (rtx : CreateTokenLaunchTxRequest) (hrtx : trimSpace rtx.wallet = "")
    (tm : String) (htm : trimSpace tm = "")
    (rfc : CreateFeeShareConfigRequest) (hrfc : trimSpace rfc.payer = "") :
    (∃ m, createTokenLaunchConfig cfgDo (some ⟨lw⟩) =
      (.error (.validation m), [])) ∧
    (∃ m, createTokenInfoAndMetadata (some r1) tiDo =
      (.error (.validation m), [])) ∧
    (∃ m, createTokenInfoAndMetadata (some r2) tiDo =
      (.error (.validation m), [])) ∧
    (∃ m, createTokenInfoAndMetadata (some r3) tiDo =
      (.error (.validation m), [])) ∧
    (∃ m, getFeeShareWallet fsDo tw = (.error (.validation m), [])) ∧
    (∃ m, createTokenLaunchTransaction txDo (some rtx) =
      (.error (.validation m), [])) ∧
    (∃ m, getTokenLifetimeFees ltDo tm = (.error (.validation m), [])) ∧
    (∃ m, getTokenLaunchCreators crDo tm = (.error (.validation m), [])) ∧
    (∃ m, createFeeShareConfig fscDo (some rfc) =
      (.error (.validation m), [])) := by
  refine ⟨⟨"launchWallet is required", by simp [createTokenLaunchConfig, hlw]⟩,
    tokenInfo_validation_error r1 tiDo (by tauto),
    tokenInfo_validation_error r2 tiDo (by tauto),
    tokenInfo_validation_error r3 tiDo (by tauto),
    ⟨"twitterUsername is required", by simp [getFeeShareWallet, htw]⟩,
    ⟨"ipfs, tokenMint, wallet, and configKey are required",
      by simp [createTokenLaunchTransaction, hrtx]⟩,
    ⟨"tokenMint is required", by simp [getTokenLifetimeFees, htm]⟩,
    ⟨"tokenMint is required", by simp [getTokenLaunchCreators, htm]⟩,
    ⟨"walletA, walletB, payer, baseMint, and quoteMint are required",
      by simp [createFeeShareConfig, hrfc]⟩⟩

theorem local_validation_no_network_witness :
    (∃ m, createTokenLaunchConfig (fun _ => .error (.network "n"))
      (some ⟨" "⟩) = (.error (.validation m), [])) ∧
    (∃ m, createTokenInfoAndMetadata
      (some ⟨"", "", "", "", "", "", none, "", ""⟩)
      (fun _ _ => .error (.network "n")) = (.error (.validation m), [])) ∧
    (∃ m, createTokenInfoAndMetadata
      (some ⟨"N", "S", "", "", "", "", none, "f.png", ""⟩)
      (fun _ _ => .error (.network "n")) = (.error (.validation m), [])) ∧
    (∃ m, createTokenInfoAndMetadata
      (some ⟨"N", "S", "", "", "", "", some ⟨[], none⟩, " ", ""⟩)
      (fun _ _ => .error (.network "n")) = (.error (.validation m), [])) ∧
    (∃ m, getFeeShareWallet (fun _ => .error (.network "n")) "" =
      (.error (.validation m), [])) ∧
    (∃ m, createTokenLaunchTransaction (fun _ => .error (.network "n"))
      (some ⟨"i", "m", "", 0, "c"⟩) = (.error (.validation m), [])) ∧
    (∃ m, getTokenLifetimeFees (fun _ => .error (.network "n")) "" =
      (.error (.validation m), [])) ∧
    (∃ m, getTokenLaunchCreators (fun _ => .error (.network "n")) "" =
      (.error (.validation m), [])) ∧
    (∃ m, createFeeShareConfig (fun _ => .error (.network "n"))
      (some ⟨"a", "b", 0, 0, "", "bm", "qm"⟩) =
      (.error (.validation m), [])) :=
  local_validation_no_network _ _ _ _ _ _ _ " " (by decide)
    ⟨"", "", "", "", "", "", none, "", ""⟩ (Or.inl (by decide))
    ⟨"N", "S", "", "", "", "", none, "f.png", ""⟩ rfl
    ⟨"N", "S", "", "", "", "", some ⟨[], none⟩, " ", ""⟩ (by decide)
    "" (by decide) ⟨"i", "m", "", 0, "c"⟩ (by decide) "" (by decide)
    ⟨"a", "b", 0, 0, "", "bm", "qm"⟩ (by decide)

/-- C10: GetTokenLifetimeFees applies no non-empty check to the
payload — a 2xx envelope with success=true and an empty response string
yields the empty string with no error — unlike the fee-share wallet and
launch-transaction lookups, which reject the same empty payload with
the "unexpected response" error. -/
theorem lifetime_fees_empty_response_ok (tm : String)
    (h : trimSpace tm ≠ "") :
    getTokenLifetimeFees (fun _ => .ok ⟨true, ""⟩) tm =
      (.ok "", [lifetimeFeesCall tm]) ∧
    getFeeShareWallet (fun _ => .ok ⟨true, ""⟩) tm =
      (.error .unexpectedResponse, [feeShareWalletCall (trimSpace tm)]) ∧
    createTokenLaunchTransaction (fun _ => .ok ⟨true, ""⟩)
        (some ⟨tm, tm, tm, 0, tm⟩) =
      (.error .unexpectedResponse, [createLaunchTxCall]) := by
  refine ⟨?_, ?_, ?_⟩
  · simp [getTokenLifetimeFees, h]
  · simp [getFeeShareWallet, h]
    decide
  · simp only [createTokenLaunchTransaction,
      if_neg (show ¬(trimSpace tm = "" ∨ trimSpace tm = "" ∨
        trimSpace tm = "" ∨ trimSpace tm = "") by simp [h])]
    simp
    decide

theorem lifetime_fees_empty_response_ok_witness :
    getTokenLifetimeFees (fun _ => .ok ⟨true, ""⟩) "Mint11" =
      (.ok "", [lifetimeFeesCall "Mint11"]) ∧
    getFeeShareWallet (fun _ => .ok ⟨true, ""⟩) "Mint11" =
      (.error .unexpectedResponse, [feeShareWalletCall (trimSpace "Mint11")]) ∧
    createTokenLaunchTransaction (fun _ => .ok ⟨true, ""⟩)
        (some ⟨"Mint11", "Mint11", "Mint11", 0, "Mint11"⟩) =
      (.error .unexpectedResponse, [createLaunchTxCall]) :=
  lifetime_fees_empty_response_ok "Mint11" (by decide)

end BagsFm
